import Mathlib

/-!
Verification development for the QR studio rendering core
(src/src/components/QRGenerator.tsx).

The embedding has three layers, each translated from the source:

* numeric layer — canvas dimensions and layout coordinates as exact
  rationals (`frameSize`, `totalHeight`, `qrX`, …), from `generateQR`
  lines 228–234 and the overlay coordinates;
* phase layer — `renderPhases`, the ordered list of drawing phases the
  compositing part of `generateQR` performs (clear, optional background
  frame, clip, symbol, clip release, optional border frame, logo disc and
  logo, caption, serialize);
* command layer — `generateQRCmds` / `drawFrameCmds`, the individual
  CanvasRenderingContext2D commands issued by `generateQR`, `drawFrame`
  and `applyQRShape`, together with a small operational semantics
  (`CtxState`, `applyCmd`, `run`) of the context state that
  `save`/`restore`/`clip` and the style setters manipulate.

Geometry (shape clip paths, stroke bands) is modelled as subsets of
`ℝ × ℝ`.
-/

namespace QRStudio

/-- Frame styles, from the `frameType` union type of `QROptions`
(QRGenerator.tsx line 20). -/
inductive FrameType
  | none | simple | rounded | gradient | neon | vintage
  | speechBubble | wavy | cardStyle
deriving DecidableEq

/-- Symbol-area shapes, from the `shape` union type (line 22). -/
inductive Shape
  | square | rounded | circle | hexagon
deriving DecidableEq

/-- Error-correction levels (line 18). -/
inductive ECLevel
  | L | M | Q | H
deriving DecidableEq

/-- The `QROptions` record (QRGenerator.tsx lines 13–26).  Numeric fields
are exact rationals; colors and texts are strings as in the source. -/
structure QROptions where
  text : String
  size : ℚ
  foregroundColor : String
  backgroundColor : String
  errorCorrectionLevel : ECLevel
  margin : ℚ
  frameType : FrameType
  frameColor : String
  shape : Shape
  bottomText : String
  bottomTextColor : String
  bottomTextSize : ℚ
deriving DecidableEq

/-- Line 229: `options.frameType !== "none" ? 60 : 0`. -/
def extraSpace (o : QROptions) : ℚ :=
  if o.frameType ≠ FrameType.none then 60 else 0

/-- Line 230: `options.bottomText ? 40 : 0` (a JS string is truthy iff
non-empty). -/
def textSpace (o : QROptions) : ℚ :=
  if o.bottomText ≠ "" then 40 else 0

/-- Line 231: `frameSize = options.size + extraSpace`; this is the canvas
width (line 233). -/
def frameSize (o : QROptions) : ℚ := o.size + extraSpace o

/-- Line 232: `totalHeight = frameSize + textSpace`; this is the canvas
height (line 234). -/
def totalHeight (o : QROptions) : ℚ := frameSize o + textSpace o

/-- Line 248: `qrX = (frameSize - options.size) / 2`. -/
def qrX (o : QROptions) : ℚ := (frameSize o - o.size) / 2

/-- Line 249: `qrY = (frameSize - options.size) / 2`. -/
def qrY (o : QROptions) : ℚ := (frameSize o - o.size) / 2

/-- Line 266: `logoSize = options.size * 0.2`. -/
def logoSize (o : QROptions) : ℚ := o.size * 0.2

/-- The style-membership test of line 241: `frameType === "speech-bubble"
|| frameType === "wavy" || frameType === "card-style"`.  The source writes
this expression out twice; `bgMembershipPre` is the occurrence guarding the
pre-symbol frame draw (lines 240–243). -/
def bgMembershipPre (ft : FrameType) : Bool :=
  ft == FrameType.speechBubble || ft == FrameType.wavy || ft == FrameType.cardStyle

/-- The second, textually duplicated occurrence of the membership test, at
line 258, guarding (negated) the post-symbol frame draw (lines 257–260). -/
def bgMembershipPost (ft : FrameType) : Bool :=
  ft == FrameType.speechBubble || ft == FrameType.wavy || ft == FrameType.cardStyle

/-- The full guard of the pre-symbol frame draw (lines 240–241):
`frameType !== "none" && (membership)`. -/
def bgFrameCondPre (ft : FrameType) : Bool :=
  ft != FrameType.none && bgMembershipPre ft

/-- The full guard of the post-symbol frame draw (lines 257–258):
`frameType !== "none" && !(membership)`. -/
def borderFrameCondPost (ft : FrameType) : Bool :=
  ft != FrameType.none && !(bgMembershipPost ft)

/-- One drawing phase of the compositing pipeline in `generateQR`
(lines 236–302), recorded with the exact numeric arguments the source
passes. -/
inductive Phase
  | clearCanvas (w h : ℚ)
  | frameDraw (ft : FrameType)
  | clipApply (sh : Shape) (x y size : ℚ)
  | symbolDraw (x y size : ℚ)
  | clipRelease
  | logoDisc (cx cy r : ℚ) (color : String)
  | logoDraw (x y w h : ℚ)
  | captionDraw (text : String) (x y : ℚ) (color : String) (fontSize : ℚ)
  | serialize (w h : ℚ)
deriving DecidableEq

/-- The ordered phases of one run of the compositing part of `generateQR`
(lines 236–302), for options `o` and the current `logoDataUrl` state
(line 263 tests its truthiness).  Transcribed block by block:
clearRect (237); background-class frame (239–243); shape clip, symbol
draw, clip release (251–254); border-class frame (256–260); logo disc and
logo (263–277); caption (279–285 resp. 292–298); `canvas.toDataURL`
(287 resp. 300). -/
def renderPhases (o : QROptions) (logoDataUrl : String) : List Phase :=
  [Phase.clearCanvas (frameSize o) (totalHeight o)]
  ++ (if bgFrameCondPre o.frameType then [Phase.frameDraw o.frameType] else [])
  ++ [Phase.clipApply o.shape (qrX o) (qrY o) o.size,
      Phase.symbolDraw (qrX o) (qrY o) o.size,
      Phase.clipRelease]
  ++ (if borderFrameCondPost o.frameType then [Phase.frameDraw o.frameType] else [])
  ++ (if logoDataUrl ≠ "" then
        [Phase.logoDisc (frameSize o / 2) (frameSize o / 2) (logoSize o / 2 + 5) o.backgroundColor,
         Phase.logoDraw ((frameSize o - logoSize o) / 2) ((frameSize o - logoSize o) / 2)
           (logoSize o) (logoSize o)]
      else [])
  ++ (if o.bottomText ≠ "" then
        [Phase.captionDraw o.bottomText (frameSize o / 2) (frameSize o + 25)
          o.bottomTextColor o.bottomTextSize]
      else [])
  ++ [Phase.serialize (frameSize o) (totalHeight o)]

/-- Recognizer for frame-draw phases. -/
def Phase.isFrameDraw : Phase → Bool
  | .frameDraw _ => true
  | _ => false

/-- Recognizer for frame-draw and symbol-draw phases, used to state the
relative order of the frame and the symbol layer. -/
def Phase.isFrameOrSymbol : Phase → Bool
  | .frameDraw _ => true
  | .symbolDraw _ _ _ => true
  | _ => false

/-- Recognizer for caption-draw phases. -/
def Phase.isCaption : Phase → Bool
  | .captionDraw _ _ _ _ _ => true
  | _ => false

/-- Recognizer for logo-disc phases. -/
def Phase.isLogoDisc : Phase → Bool
  | .logoDisc _ _ _ _ => true
  | _ => false

/-- Recognizer for logo-draw and caption-draw phases, used to state that
the caption is drawn after the logo overlay. -/
def Phase.isLogoDrawOrCaption : Phase → Bool
  | .logoDraw _ _ _ _ => true
  | .captionDraw _ _ _ _ _ => true
  | _ => false

/-- Recognizer for symbol-draw and caption-draw phases. -/
def Phase.isSymbolOrCaption : Phase → Bool
  | .symbolDraw _ _ _ => true
  | .captionDraw _ _ _ _ _ => true
  | _ => false

/-- Recognizer for caption-draw and serialize phases, used to state that
the caption is the last draw before serialization. -/
def Phase.isCaptionOrSerialize : Phase → Bool
  | .captionDraw _ _ _ _ _ => true
  | .serialize _ _ => true
  | _ => false

/-- A sample options value (the component's initial state, lines 29–42)
with a wavy frame selected. -/
def wavyOpts : QROptions :=
  { text := "https://lovable.dev", size := 300, foregroundColor := "#000000",
    backgroundColor := "#ffffff", errorCorrectionLevel := ECLevel.M, margin := 4,
    frameType := FrameType.wavy, frameColor := "#6366f1", shape := Shape.square,
    bottomText := "Scan Me", bottomTextColor := "#000000", bottomTextSize := 16 }

/-- The sample options with the `simple` (border-class) frame. -/
def simpleOpts : QROptions := { wavyOpts with frameType := FrameType.simple }

/-- The sample options with no frame. -/
def noneFrameOpts : QROptions := { wavyOpts with frameType := FrameType.none }

/-- The center of the canvas, whose dimensions are
`frameSize × totalHeight` (lines 233–234). -/
def canvasCenter (o : QROptions) : ℚ × ℚ := (frameSize o / 2, totalHeight o / 2)

/-- Axis-aligned closed rectangle with corner (x, y), width w and
height h. -/
def rectSet (x y w h : ℝ) : Set (ℝ × ℝ) :=
  {p | x ≤ p.1 ∧ p.1 ≤ x + w ∧ y ≤ p.2 ∧ p.2 ≤ y + h}

/-- Closed disk centered at (cx, cy) with radius r. -/
def diskSet (cx cy r : ℝ) : Set (ℝ × ℝ) :=
  {p | (p.1 - cx) ^ 2 + (p.2 - cy) ^ 2 ≤ r ^ 2}

/-- Filled region of a rounded rectangle of corner radius r: the two
cross rectangles together with the four corner disks. -/
def roundedRectSet (x y w h r : ℝ) : Set (ℝ × ℝ) :=
  {p | x ≤ p.1 ∧ p.1 ≤ x + w ∧ y + r ≤ p.2 ∧ p.2 ≤ y + h - r} ∪
  {p | x + r ≤ p.1 ∧ p.1 ≤ x + w - r ∧ y ≤ p.2 ∧ p.2 ≤ y + h} ∪
  diskSet (x + r) (y + r) r ∪ diskSet (x + w - r) (y + r) r ∪
  diskSet (x + r) (y + h - r) r ∪ diskSet (x + w - r) (y + h - r) r

/-- The path points of the hexagon case of `applyQRShape` (lines 66–75):
the `moveTo` start point `(centerX + hexRadius, centerY)` together with
the targets of the loop's `lineTo((cX + r·cos((i·π)/3), cY + r·sin((i·π)/3)))`
for `i = 1..6`. -/
def hexPathPoints (cx cy r : ℝ) : Set (ℝ × ℝ) :=
  insert (cx + r, cy)
    {p | ∃ i : ℕ, 1 ≤ i ∧ i ≤ 6 ∧
      p = (cx + r * Real.cos ((i * Real.pi) / 3), cy + r * Real.sin ((i * Real.pi) / 3))}

/-- The spec's description of the hexagon: the vertices of the regular
hexagon of circumradius r centered at (cx, cy), vertex i at angle i·60°
for i = 0..5 (vertex 0 at angle 0). -/
def regularHexVertices (cx cy r : ℝ) : Set (ℝ × ℝ) :=
  {p | ∃ i : ℕ, i < 6 ∧
    p = (cx + r * Real.cos (i * (Real.pi / 3)), cy + r * Real.sin (i * (Real.pi / 3)))}

/-- The clip region established by `applyQRShape` (lines 54–82) for each
shape over the square region (x, y, size): the rect path (line 78), the
roundRect path of radius `size * 0.1` (lines 60–61), the full-turn arc
around the region center with radius `size / 2` (line 64), and the filled
closed hexagon path (lines 66–75; the filled region of a convex closed
polygon is the convex hull of its vertices). -/
def clipSet : Shape → ℝ → ℝ → ℝ → Set (ℝ × ℝ)
  | Shape.square, x, y, size => rectSet x y size size
  | Shape.rounded, x, y, size => roundedRectSet x y size size (size * 0.1)
  | Shape.circle, x, y, size => diskSet (x + size / 2) (y + size / 2) (size / 2)
  | Shape.hexagon, x, y, size =>
      convexHull ℝ (hexPathPoints (x + size / 2) (y + size / 2) (size / 2))

/-- The symbol pixels of a render: the symbol is drawn over the square
region at (qrX, qrY) of side `size` (line 253) under the clip established
by `applyQRShape` (line 252). -/
def symbolPixels (o : QROptions) : Set (ℝ × ℝ) :=
  rectSet (qrX o) (qrY o) o.size o.size ∩ clipSet o.shape (qrX o) (qrY o) o.size

/-- The sample options with the circle shape. -/
def circleOpts : QROptions := { wavyOpts with shape := Shape.circle }

/-- The sample options with the hexagon shape. -/
def hexOpts : QROptions := { wavyOpts with shape := Shape.hexagon }

/-- Stroke band painted by `strokeRect(x, y, w, h)` at line width lw: all
points within lw/2 of one of the four edges (each edge band spanning the
adjacent corners). -/
def strokeRectSet (x y w h lw : ℝ) : Set (ℝ × ℝ) :=
  {p | |p.1 - x| ≤ lw / 2 ∧ y - lw / 2 ≤ p.2 ∧ p.2 ≤ y + h + lw / 2} ∪
  {p | |p.1 - (x + w)| ≤ lw / 2 ∧ y - lw / 2 ≤ p.2 ∧ p.2 ≤ y + h + lw / 2} ∪
  {p | |p.2 - y| ≤ lw / 2 ∧ x - lw / 2 ≤ p.1 ∧ p.1 ≤ x + w + lw / 2} ∪
  {p | |p.2 - (y + h)| ≤ lw / 2 ∧ x - lw / 2 ≤ p.1 ∧ p.1 ≤ x + w + lw / 2}

/-- The region painted by the `simple` frame style (drawFrame lines
84–95): `strokeRect(padding, padding, frameWidth, frameHeight)` with
`padding = frameSize * 0.1`, `frameWidth = frameHeight = frameSize -
padding * 2` and line width 8. -/
def simpleFramePaint (fs : ℝ) : Set (ℝ × ℝ) :=
  strokeRectSet (fs * 0.1) (fs * 0.1) (fs - fs * 0.1 * 2) (fs - fs * 0.1 * 2) 8

/-- Coordinate expressions occurring in path commands.  `q v` is the
plain rational v; `sinE c a m` is `c + a * Math.sin(m)` (the wavy frame's
edge formulas); `cosPi3 c r k` is `c + r * Math.cos((k * π) / 3)` and
`sinPi3 c r k` is `c + r * Math.sin((k * π) / 3)` (the hexagon loop). -/
inductive Coord
  | q (v : ℚ)
  | sinE (c a m : ℚ)
  | cosPi3 (c r : ℚ) (k : ℕ)
  | sinPi3 (c r : ℚ) (k : ℕ)
deriving DecidableEq

/-- A canvas paint style: a plain color string, or the linear gradient of
`createLinearGradient` with its color stops (drawFrame lines 108–112). -/
inductive StyleVal
  | color (c : String)
  | linGradient (x0 y0 x1 y1 : ℚ) (stops : List (ℚ × String))
deriving DecidableEq

/-- Path-building commands.  Arc angles are recorded as multiples of π
(the source only uses `0` and `2 * Math.PI`). -/
inductive PathSeg
  | rect (x y w h : ℚ)
  | roundRect (x y w h r : ℚ)
  | arc (cx cy r startPi endPi : ℚ)
  | moveTo (x y : Coord)
  | lineTo (x y : Coord)
  | close
deriving DecidableEq

/-- The two image sources drawn by `generateQR`: the decoded symbol
bitmap and the decoded logo bitmap. -/
inductive ImgSrc
  | symbol
  | logo
deriving DecidableEq

/-- A CanvasRenderingContext2D command, one per context operation the
source performs. -/
inductive Cmd
  | save
  | restore
  | beginPath
  | pathSeg (s : PathSeg)
  | clip
  | setStrokeStyle (v : StyleVal)
  | setFillStyle (v : StyleVal)
  | setLineWidth (w : ℚ)
  | setShadowColor (c : String)
  | setShadowBlur (b : ℚ)
  | setShadowOffsetX (v : ℚ)
  | setShadowOffsetY (v : ℚ)
  | setFont (f : String)
  | setTextAlign (a : String)
  | stroke
  | fill
  | strokeRect (x y w h : ℚ)
  | fillRect (x y w h : ℚ)
  | clearRect (x y w h : ℚ)
  | drawImage (img : ImgSrc) (x y w h : ℚ)
  | fillText (s : String) (x y : ℚ)
deriving DecidableEq

/-- The drawing-state portion of a 2D context that `save`/`restore`
snapshot: paint styles, line width, shadow parameters, font, text
alignment and the clip region (a list of clip paths, intersected).
Defaults are the canvas defaults. -/
structure CtxStyle where
  strokeStyle : StyleVal := StyleVal.color "#000000"
  fillStyle : StyleVal := StyleVal.color "#000000"
  lineWidth : ℚ := 1
  shadowColor : String := "rgba(0, 0, 0, 0)"
  shadowBlur : ℚ := 0
  shadowOffsetX : ℚ := 0
  shadowOffsetY : ℚ := 0
  font : String := "10px sans-serif"
  textAlign : String := "start"
  clips : List (List PathSeg) := []
deriving DecidableEq

/-- Full context state: the active drawing state, the `save` stack, and
the current path (which, per canvas semantics, is NOT saved/restored). -/
structure CtxState where
  style : CtxStyle := {}
  stack : List CtxStyle := []
  path : List PathSeg := []
deriving DecidableEq

/-- A freshly acquired context. -/
def initCtx : CtxState := {}

/-- Effect of one command on the context state.  Painting commands
(stroke, fill, rects, images, text) do not change the context state. -/
def applyCmd (s : CtxState) : Cmd → CtxState
  | Cmd.save => { s with stack := s.style :: s.stack }
  | Cmd.restore =>
      match s.stack with
      | [] => s
      | st :: rest => { s with style := st, stack := rest }
  | Cmd.beginPath => { s with path := [] }
  | Cmd.pathSeg sg => { s with path := s.path ++ [sg] }
  | Cmd.clip => { s with style := { s.style with clips := s.style.clips ++ [s.path] } }
  | Cmd.setStrokeStyle v => { s with style := { s.style with strokeStyle := v } }
  | Cmd.setFillStyle v => { s with style := { s.style with fillStyle := v } }
  | Cmd.setLineWidth w => { s with style := { s.style with lineWidth := w } }
  | Cmd.setShadowColor c => { s with style := { s.style with shadowColor := c } }
  | Cmd.setShadowBlur b => { s with style := { s.style with shadowBlur := b } }
  | Cmd.setShadowOffsetX v => { s with style := { s.style with shadowOffsetX := v } }
  | Cmd.setShadowOffsetY v => { s with style := { s.style with shadowOffsetY := v } }
  | Cmd.setFont f => { s with style := { s.style with font := f } }
  | Cmd.setTextAlign a => { s with style := { s.style with textAlign := a } }
  | _ => s

/-- Run a command list left to right. -/
def run : List Cmd → CtxState → CtxState
  | [], s => s
  | c :: l, s => run l (applyCmd s c)

/-- Does a command push or pop the save stack. -/
def Cmd.touchesStack : Cmd → Bool
  | Cmd.save => true
  | Cmd.restore => true
  | _ => false

/-- Iteration count of a wavy edge loop `for v = start; v ≤ start + len;
v += 10` (resp. the decreasing variant): the values are start + 10·k for
10·k ≤ len. -/
def wavySteps (len : ℚ) : ℕ :=
  if len < 0 then 0 else Nat.floor (len / 10) + 1

/-- Top wavy edge (drawFrame lines 162–165):
`lineTo(x, padding + 5 * sin((x - padding) * 0.1) + 5)` for
x = padding, padding + 10, … while x ≤ padding + frameWidth. -/
def wavyTopCmds (padding frameWidth : ℚ) : List Cmd :=
  (List.range (wavySteps frameWidth)).map fun k =>
    Cmd.pathSeg (PathSeg.lineTo (Coord.q (padding + 10 * k))
      (Coord.sinE (padding + 5) 5 ((padding + 10 * k - padding) * (1 / 10))))

/-- Right wavy edge (lines 167–170):
`lineTo(padding + frameWidth - 5 * sin((y - padding) * 0.1) - 5, y)` for
y = padding, padding + 10, … while y ≤ padding + frameHeight. -/
def wavyRightCmds (padding frameWidth frameHeight : ℚ) : List Cmd :=
  (List.range (wavySteps frameHeight)).map fun k =>
    Cmd.pathSeg (PathSeg.lineTo
      (Coord.sinE (padding + frameWidth - 5) (-5) ((padding + 10 * k - padding) * (1 / 10)))
      (Coord.q (padding + 10 * k)))

/-- Bottom wavy edge (lines 172–175):
`lineTo(x, padding + frameHeight - 5 * sin((x - padding) * 0.1) - 5)` for
x = padding + frameWidth, padding + frameWidth - 10, … while x ≥ padding. -/
def wavyBottomCmds (padding frameWidth frameHeight : ℚ) : List Cmd :=
  (List.range (wavySteps frameWidth)).map fun k =>
    Cmd.pathSeg (PathSeg.lineTo (Coord.q (padding + frameWidth - 10 * k))
      (Coord.sinE (padding + frameHeight - 5) (-5)
        ((padding + frameWidth - 10 * k - padding) * (1 / 10))))

/-- Left wavy edge (lines 177–180):
`lineTo(padding + 5 * sin((y - padding) * 0.1) + 5, y)` for
y = padding + frameHeight, padding + frameHeight - 10, … while
y ≥ padding. -/
def wavyLeftCmds (padding frameHeight : ℚ) : List Cmd :=
  (List.range (wavySteps frameHeight)).map fun k =>
    Cmd.pathSeg (PathSeg.lineTo
      (Coord.sinE (padding + 5) 5 ((padding + frameHeight - 10 * k - padding) * (1 / 10)))
      (Coord.q (padding + frameHeight - 10 * k)))

/-- The style-specific drawing commands of `drawFrame` (the switch at
lines 91–200), case by case with the source's constants: padding is
`frameSize * 0.1`, frameWidth = frameHeight = `frameSize - padding * 2`;
the speech bubble uses bubbleRadius 20 and tailSize 20; the card style
uses borderWidth 10. -/
def drawFrameBody (o : QROptions) (fs : ℚ) : List Cmd :=
  let padding := fs * 0.1
  let frameWidth := fs - padding * 2
  let frameHeight := fs - padding * 2
  match o.frameType with
  | FrameType.none => []
  | FrameType.simple =>
      [Cmd.setStrokeStyle (StyleVal.color o.frameColor), Cmd.setLineWidth 8,
       Cmd.strokeRect padding padding frameWidth frameHeight]
  | FrameType.rounded =>
      [Cmd.setStrokeStyle (StyleVal.color o.frameColor), Cmd.setLineWidth 8,
       Cmd.beginPath,
       Cmd.pathSeg (PathSeg.roundRect padding padding frameWidth frameHeight 20),
       Cmd.stroke]
  | FrameType.gradient =>
      [Cmd.setStrokeStyle (StyleVal.linGradient 0 0 fs fs
         [(0, o.frameColor), (1 / 2, o.backgroundColor), (1, o.frameColor)]),
       Cmd.setLineWidth 12, Cmd.strokeRect padding padding frameWidth frameHeight]
  | FrameType.neon =>
      [Cmd.setShadowColor o.frameColor, Cmd.setShadowBlur 20,
       Cmd.setStrokeStyle (StyleVal.color o.frameColor), Cmd.setLineWidth 4,
       Cmd.strokeRect padding padding frameWidth frameHeight,
       Cmd.setShadowBlur 10,
       Cmd.strokeRect (padding + 4) (padding + 4) (frameWidth - 8) (frameHeight - 8)]
  | FrameType.vintage =>
      [Cmd.setStrokeStyle (StyleVal.color o.frameColor), Cmd.setLineWidth 12,
       Cmd.strokeRect padding padding frameWidth frameHeight,
       Cmd.setStrokeStyle (StyleVal.color o.backgroundColor), Cmd.setLineWidth 4,
       Cmd.strokeRect (padding + 4) (padding + 4) (frameWidth - 8) (frameHeight - 8)]
  | FrameType.speechBubble =>
      [Cmd.setFillStyle (StyleVal.color o.frameColor),
       Cmd.beginPath,
       Cmd.pathSeg (PathSeg.roundRect padding padding frameWidth (frameHeight - 20) 20),
       Cmd.fill,
       Cmd.beginPath,
       Cmd.pathSeg (PathSeg.moveTo (Coord.q (fs / 2 - 20 / 2))
         (Coord.q (frameHeight + padding - 20))),
       Cmd.pathSeg (PathSeg.lineTo (Coord.q (fs / 2)) (Coord.q (frameHeight + padding))),
       Cmd.pathSeg (PathSeg.lineTo (Coord.q (fs / 2 + 20 / 2))
         (Coord.q (frameHeight + padding - 20))),
       Cmd.pathSeg PathSeg.close,
       Cmd.fill]
  | FrameType.wavy =>
      [Cmd.setFillStyle (StyleVal.color o.frameColor), Cmd.beginPath,
       Cmd.pathSeg (PathSeg.moveTo (Coord.q padding) (Coord.q (padding + 10)))]
      ++ wavyTopCmds padding frameWidth
      ++ wavyRightCmds padding frameWidth frameHeight
      ++ wavyBottomCmds padding frameWidth frameHeight
      ++ wavyLeftCmds padding frameHeight
      ++ [Cmd.pathSeg PathSeg.close, Cmd.fill]
  | FrameType.cardStyle =>
      [Cmd.setFillStyle (StyleVal.color o.frameColor),
       Cmd.setShadowColor "rgba(0, 0, 0, 0.3)", Cmd.setShadowBlur 10,
       Cmd.setShadowOffsetX 3, Cmd.setShadowOffsetY 3,
       Cmd.fillRect padding padding frameWidth frameHeight,
       Cmd.setShadowColor "transparent",
       Cmd.setFillStyle (StyleVal.color "#ffffff"),
       Cmd.fillRect (padding + 10) (padding + 10) (frameWidth - 10 * 2)
         (frameHeight - 10 * 2)]

/-- `drawFrame` (lines 84–203): `ctx.save()`, the style switch,
`ctx.restore()`. -/
def drawFrameCmds (o : QROptions) (fs : ℚ) : List Cmd :=
  Cmd.save :: drawFrameBody o fs ++ [Cmd.restore]

/-- The path segments built by `applyQRShape`'s switch (lines 58–79):
rect; roundRect of radius `size * 0.1`; a full-turn arc around the region
center; the hexagon's moveTo start plus six lineTo steps at angles
`(i * π) / 3`, i = 1..6, then closePath. -/
def shapePathSegs (sh : Shape) (x y size : ℚ) : List PathSeg :=
  match sh with
  | Shape.rounded => [PathSeg.roundRect x y size size (size * 0.1)]
  | Shape.circle => [PathSeg.arc (x + size / 2) (y + size / 2) (size / 2) 0 2]
  | Shape.hexagon =>
      PathSeg.moveTo (Coord.q (x + size / 2 + size / 2)) (Coord.q (y + size / 2))
        :: ((List.range 6).map fun i =>
              PathSeg.lineTo (Coord.cosPi3 (x + size / 2) (size / 2) (i + 1))
                (Coord.sinPi3 (y + size / 2) (size / 2) (i + 1)))
        ++ [PathSeg.close]
  | Shape.square => [PathSeg.rect x y size size]

/-- `applyQRShape` (lines 54–82): save, beginPath, the shape path, clip. -/
def applyQRShapeCmds (sh : Shape) (x y size : ℚ) : List Cmd :=
  [Cmd.save, Cmd.beginPath] ++ (shapePathSegs sh x y size).map Cmd.pathSeg ++ [Cmd.clip]

/-- Logo overlay commands (lines 263–277): background circle in
`backgroundColor`, then the logo image. -/
def logoCmds (o : QROptions) : List Cmd :=
  [Cmd.setFillStyle (StyleVal.color o.backgroundColor), Cmd.beginPath,
   Cmd.pathSeg (PathSeg.arc (frameSize o / 2) (frameSize o / 2) (logoSize o / 2 + 5) 0 2),
   Cmd.fill,
   Cmd.drawImage ImgSrc.logo ((frameSize o - logoSize o) / 2) ((frameSize o - logoSize o) / 2)
     (logoSize o) (logoSize o)]

/-- Caption commands (lines 280–285 resp. 292–298). -/
def captionCmds (o : QROptions) : List Cmd :=
  [Cmd.setFillStyle (StyleVal.color o.bottomTextColor),
   Cmd.setFont (toString o.bottomTextSize ++ "px Arial"),
   Cmd.setTextAlign "center",
   Cmd.fillText o.bottomText (frameSize o / 2) (frameSize o + 25)]

/-- Commands issued before the symbol draw: clearRect (line 237), the
optional background-class frame (lines 240–243), and `applyQRShape`'s
save/path/clip (line 252). -/
def preSymbolCmds (o : QROptions) : List Cmd :=
  [Cmd.clearRect 0 0 (frameSize o) (totalHeight o)]
  ++ (if bgFrameCondPre o.frameType then drawFrameCmds o (frameSize o) else [])
  ++ applyQRShapeCmds o.shape (qrX o) (qrY o) o.size

/-- Commands issued after the clip release (line 254): the optional
border-class frame (lines 257–260), the logo overlay (263–277), and the
caption (280–298). -/
def postSymbolCmds (o : QROptions) (logoDataUrl : String) : List Cmd :=
  (if borderFrameCondPost o.frameType then drawFrameCmds o (frameSize o) else [])
  ++ (if logoDataUrl ≠ "" then logoCmds o else [])
  ++ (if o.bottomText ≠ "" then captionCmds o else [])

/-- The full command stream of the compositing part of `generateQR`
(lines 236–302): the pre-symbol commands, the symbol drawImage
(line 253), the `ctx.restore()` releasing the clip (line 254), then the
post-symbol commands. -/
def generateQRCmds (o : QROptions) (logoDataUrl : String) : List Cmd :=
  preSymbolCmds o
  ++ Cmd.drawImage ImgSrc.symbol (qrX o) (qrY o) o.size o.size
    :: Cmd.restore :: postSymbolCmds o logoDataUrl

/-- A toast notification (the `sonner` collaborator). -/
inductive Toast
  | success (msg : String)
  | error (msg : String)
deriving DecidableEq

/-- The rendered artifact: canvas dimensions plus the drawing trace that
produced the serialized PNG (`canvas.toDataURL`, lines 287/300). -/
structure Artifact where
  width : ℚ
  height : ℚ
  phases : List Phase
deriving DecidableEq

/-- Modelled from the spec: the third-party symbol encoder (the `qrcode`
npm package invoked at line 219, not part of src/) fails with an
encoding error when the payload exceeds the capacity of the symbol
version ceiling at the requested error-correction level; the ceilings are
the standard version-40 byte capacities, decreasing as the level's
redundancy grows. -/
def symbolCapacity : ECLevel → ℕ
  | ECLevel.L => 2953
  | ECLevel.M => 2331
  | ECLevel.Q => 1663
  | ECLevel.H => 1273

/-- Modelled from the spec: `QRCode.toDataURL` (line 219) returns a data
URL for the encoded symbol, or throws when the payload exceeds the
capacity ceiling. -/
def encodeSymbol (text : String) (lvl : ECLevel) : Except String String :=
  if symbolCapacity lvl < text.length then Except.error "code length overflow"
  else Except.ok ("data:image/png;base64," ++ text)

/-- One run of `generateQR` (lines 205–309): on encoder success the
compositing pipeline runs and the serialized artifact replaces
`qrDataUrl` (lines 288/301); on encoder failure the catch at lines
305–308 emits the failure toast and nothing else happens — no
compositing phases, and the previous `qrDataUrl` is left as it was. -/
def generateQRRun (o : QROptions) (logoDataUrl : String) (prev : Option Artifact) :
    Option Artifact × List Phase × List Toast :=
  match encodeSymbol o.text o.errorCorrectionLevel with
  | Except.error _ => (prev, [], [Toast.error "Failed to generate QR code"])
  | Except.ok _ =>
      (some { width := frameSize o, height := totalHeight o,
              phases := renderPhases o logoDataUrl },
       renderPhases o logoDataUrl, [])

/-- Sample options whose 1274-byte payload exceeds the level-H capacity
ceiling of 1273. -/
def overflowOpts : QROptions :=
  { wavyOpts with
    text := String.mk (List.replicate 1274 'a'),
    errorCorrectionLevel := ECLevel.H }

/-- An uploaded file as seen by `handleLogoUpload` (line 312): its byte
size, name and contents. -/
structure LogoFile where
  size : ℕ
  name : String
  content : String
deriving DecidableEq

/-- The component state touched by `handleLogoUpload`: the stored file
and `logoDataUrl` (initially the empty string, lines 45–46). -/
structure LogoState where
  logoFile : Option LogoFile := none
  logoDataUrl : String := ""
deriving DecidableEq

/-- The data URL the FileReader produces from the file's contents
(line 325, `readAsDataURL`). -/
def fileDataUrl (f : LogoFile) : String := "data:;base64," ++ f.content

/-- `handleLogoUpload` (lines 311–327): no file selected does nothing; a
file over 5 MB (5*1024*1024 bytes) is rejected with an error toast and no
state change; otherwise the file is stored, `logoDataUrl` is set from the
file's contents, and a success toast is emitted once the read completes. -/
def handleLogoUpload (file : Option LogoFile) (st : LogoState) : LogoState × List Toast :=
  match file with
  | none => (st, [])
  | some f =>
      if 5 * 1024 * 1024 < f.size then
        (st, [Toast.error "Logo file size must be less than 5MB"])
      else
        ({ logoFile := some f, logoDataUrl := fileDataUrl f },
         [Toast.success "Logo uploaded successfully!"])

/-- A 6 MB logo file. -/
def bigLogo : LogoFile := { size := 6 * 1024 * 1024, name := "big.png", content := "BIG" }

/-- A 4 MB logo file. -/
def okLogo : LogoFile := { size := 4 * 1024 * 1024, name := "ok.png", content := "OK" }

/-- C1: canvas width is `size + 60` exactly when a frame is selected, and
canvas height is `frameSize + 40` exactly when a caption is present
(QRGenerator.tsx lines 228–234). -/
theorem canvas_dimensions (o : QROptions) :
    (o.frameType ≠ FrameType.none → frameSize o = o.size + 60) ∧
    (o.frameType = FrameType.none → frameSize o = o.size) ∧
    (o.bottomText ≠ "" → totalHeight o = frameSize o + 40) ∧
    (o.bottomText = "" → totalHeight o = frameSize o) := by
  refine ⟨fun h => ?_, fun h => ?_, fun h => ?_, fun h => ?_⟩ <;>
    simp [frameSize, totalHeight, extraSpace, textSpace, h]

/-- The subsequence of frame-draw and symbol-draw phases of a render,
computed once and shared by the ordering theorems. -/
theorem filter_frameOrSymbol (o : QROptions) (logoDataUrl : String) :
    (renderPhases o logoDataUrl).filter (fun p => Phase.isFrameOrSymbol p) =
      (if bgFrameCondPre o.frameType then [Phase.frameDraw o.frameType] else [])
      ++ Phase.symbolDraw (qrX o) (qrY o) o.size ::
        (if borderFrameCondPost o.frameType then [Phase.frameDraw o.frameType] else []) := by
  simp only [renderPhases, List.filter_append]
  split_ifs <;> simp [Phase.isFrameOrSymbol]

/-- Witness for C1 at the sample options: a framed render with a caption
gets a 360-wide, 400-tall canvas. -/
theorem canvas_dimensions_witness :
    frameSize wavyOpts = wavyOpts.size + 60 ∧ totalHeight wavyOpts = frameSize wavyOpts + 40 :=
  ⟨(canvas_dimensions wavyOpts).1 (by decide),
   (canvas_dimensions wavyOpts).2.2.1 (by decide)⟩

/-- C2 (amended): background-class frames are painted before the symbol
layer and border-class frames after it — in the subsequence of frame and
symbol phases, a background-class frame precedes the symbol draw and a
border-class frame follows it, and the frame phase occurs exactly once. -/
theorem frame_symbol_order (o : QROptions) (logoDataUrl : String) :
    (bgMembershipPre o.frameType = true →
      (renderPhases o logoDataUrl).filter (fun p => Phase.isFrameOrSymbol p) =
        [Phase.frameDraw o.frameType, Phase.symbolDraw (qrX o) (qrY o) o.size]) ∧
    (o.frameType ≠ FrameType.none → bgMembershipPre o.frameType = false →
      (renderPhases o logoDataUrl).filter (fun p => Phase.isFrameOrSymbol p) =
        [Phase.symbolDraw (qrX o) (qrY o) o.size, Phase.frameDraw o.frameType]) := by
  have key := filter_frameOrSymbol o logoDataUrl
  constructor
  · intro h1
    have hb : bgFrameCondPre o.frameType = true := by
      cases hft : o.frameType <;> simp_all [bgMembershipPre, bgFrameCondPre]
    have hd : borderFrameCondPost o.frameType = false := by
      cases hft : o.frameType <;>
        simp_all [bgMembershipPre, bgMembershipPost, borderFrameCondPost]
    rw [key, hb, hd]
    simp
  · intro hne h2
    have hb : bgFrameCondPre o.frameType = false := by
      cases hft : o.frameType <;> simp_all [bgMembershipPre, bgFrameCondPre]
    have hd : borderFrameCondPost o.frameType = true := by
      cases hft : o.frameType <;>
        simp_all [bgMembershipPre, bgMembershipPost, borderFrameCondPost]
    rw [key, hb, hd]
    simp

/-- Witness for C2 at the wavy (background-class) sample options. -/
theorem frame_symbol_order_witness :
    (renderPhases wavyOpts "").filter (fun p => Phase.isFrameOrSymbol p) =
      [Phase.frameDraw wavyOpts.frameType,
       Phase.symbolDraw (qrX wavyOpts) (qrY wavyOpts) wavyOpts.size] :=
  (frame_symbol_order wavyOpts "").1 (by decide)

/-- C9: the two textually duplicated style-membership tests (line 241 and
line 258) denote the same set of background-class styles, and therefore a
render draws the frame exactly once when a frame is selected and never
otherwise. -/
theorem frame_drawn_once (o : QROptions) (logoDataUrl : String) :
    (∀ ft, bgMembershipPre ft = bgMembershipPost ft) ∧
    (renderPhases o logoDataUrl).countP (fun p => Phase.isFrameDraw p) =
      (if o.frameType = FrameType.none then 0 else 1) := by
  refine ⟨fun ft => by cases ft <;> rfl, ?_⟩
  have key : (renderPhases o logoDataUrl).countP (fun p => Phase.isFrameDraw p) =
      (if bgFrameCondPre o.frameType then 1 else 0) +
        (if borderFrameCondPost o.frameType then 1 else 0) := by
    simp only [renderPhases, List.countP_append]
    split_ifs <;> simp [Phase.isFrameDraw]
  rw [key]
  cases o.frameType <;> rfl

/-- C3 (amended): the caption, when present, is drawn once, centered
horizontally (x = half the canvas width), at y = `frameSize + 25` — 25px
below the bottom edge of the framed square, which coincides with 25px
below the symbol region's bottom edge exactly when no frame is selected —
using `bottomTextColor` and `bottomTextSize`; it follows the logo overlay
when a logo is present, always follows the symbol draw, and is the last
draw before serialization. -/
theorem caption_draw_spec (o : QROptions) (logoDataUrl : String) (h : o.bottomText ≠ "") :
    (renderPhases o logoDataUrl).filter (fun p => Phase.isCaption p) =
      [Phase.captionDraw o.bottomText (frameSize o / 2) (frameSize o + 25)
        o.bottomTextColor o.bottomTextSize] ∧
    (logoDataUrl ≠ "" →
      (renderPhases o logoDataUrl).filter (fun p => Phase.isLogoDrawOrCaption p) =
        [Phase.logoDraw ((frameSize o - logoSize o) / 2) ((frameSize o - logoSize o) / 2)
           (logoSize o) (logoSize o),
         Phase.captionDraw o.bottomText (frameSize o / 2) (frameSize o + 25)
           o.bottomTextColor o.bottomTextSize]) ∧
    (renderPhases o logoDataUrl).filter (fun p => Phase.isSymbolOrCaption p) =
      [Phase.symbolDraw (qrX o) (qrY o) o.size,
       Phase.captionDraw o.bottomText (frameSize o / 2) (frameSize o + 25)
         o.bottomTextColor o.bottomTextSize] ∧
    (renderPhases o logoDataUrl).filter (fun p => Phase.isCaptionOrSerialize p) =
      [Phase.captionDraw o.bottomText (frameSize o / 2) (frameSize o + 25)
         o.bottomTextColor o.bottomTextSize,
       Phase.serialize (frameSize o) (totalHeight o)] ∧
    (frameSize o + 25 = (qrY o + o.size) + 25 ↔ o.frameType = FrameType.none) := by
  refine ⟨?_, fun hl => ?_, ?_, ?_, ?_⟩
  · simp only [renderPhases, List.filter_append]
    split_ifs <;> simp_all [Phase.isCaption]
  · simp only [renderPhases, List.filter_append]
    split_ifs <;> simp_all [Phase.isLogoDrawOrCaption]
  · simp only [renderPhases, List.filter_append]
    split_ifs <;> simp_all [Phase.isSymbolOrCaption]
  · simp only [renderPhases, List.filter_append]
    split_ifs <;> simp_all [Phase.isCaptionOrSerialize]
  · cases hft : o.frameType <;> simp [frameSize, extraSpace, qrY, hft] <;> intro hc <;> linarith

/-- Witness for C3 at the wavy sample options with a logo present. -/
theorem caption_draw_spec_witness :
    (renderPhases wavyOpts "x").filter (fun p => Phase.isCaption p) =
      [Phase.captionDraw wavyOpts.bottomText (frameSize wavyOpts / 2) (frameSize wavyOpts + 25)
        wavyOpts.bottomTextColor wavyOpts.bottomTextSize] :=
  (caption_draw_spec wavyOpts "x" (by decide)).1

/-- Counterexample to C3 as stated: at size 300 with the `simple` frame,
the caption is drawn at y = 385, but 25px below the symbol region's
bottom edge would be y = (qrY + size) + 25 = 355. -/
theorem caption_offset_counterexample :
    simpleOpts.bottomText ≠ "" ∧
    (renderPhases simpleOpts "").filter (fun p => Phase.isCaption p) =
      [Phase.captionDraw "Scan Me" 180 385 "#000000" 16] ∧
    (385 : ℚ) ≠ (qrY simpleOpts + simpleOpts.size) + 25 := by
  have h1 : ¬FrameType.simple = FrameType.none := by decide
  have h2 : ¬FrameType.simple = FrameType.speechBubble := by decide
  have h3 : ¬FrameType.simple = FrameType.wavy := by decide
  have h4 : ¬FrameType.simple = FrameType.cardStyle := by decide
  have h5 : ¬"Scan Me" = "" := by decide
  refine ⟨by decide, ?_, ?_⟩
  · norm_num [renderPhases, List.filter_append, Phase.isCaption, simpleOpts, wavyOpts,
      frameSize, extraSpace, bgFrameCondPre, borderFrameCondPost, bgMembershipPre,
      bgMembershipPost, h1, h2, h3, h4, h5]
  · norm_num [qrY, frameSize, extraSpace, simpleOpts, wavyOpts, h1]

/-- C4 (amended): the logo backing disc is drawn once, filled with
`backgroundColor`, with radius exactly `size*0.2/2 + 5`, centered at the
center of the `frameSize × frameSize` symbol square; that point is the
canvas center exactly when `bottomText` is empty (with a caption the
canvas is 40px taller and the disc sits above its center). -/
theorem logo_disc_spec (o : QROptions) (logoDataUrl : String) (h : logoDataUrl ≠ "") :
    (renderPhases o logoDataUrl).filter (fun p => Phase.isLogoDisc p) =
      [Phase.logoDisc (frameSize o / 2) (frameSize o / 2) (logoSize o / 2 + 5)
        o.backgroundColor] ∧
    logoSize o / 2 + 5 = o.size * 0.2 / 2 + 5 ∧
    ((frameSize o / 2, frameSize o / 2) = canvasCenter o ↔ o.bottomText = "") := by
  refine ⟨?_, rfl, ?_⟩
  · simp only [renderPhases, List.filter_append]
    split_ifs <;> simp_all [Phase.isLogoDisc]
  · by_cases hb : o.bottomText = ""
    · simp [canvasCenter, totalHeight, textSpace, hb, Prod.ext_iff]
    · simp [canvasCenter, totalHeight, textSpace, hb, Prod.ext_iff]
      intro hc
      linarith

/-- Witness for C4 at the wavy sample options with a logo present. -/
theorem logo_disc_spec_witness :
    (renderPhases wavyOpts "x").filter (fun p => Phase.isLogoDisc p) =
      [Phase.logoDisc (frameSize wavyOpts / 2) (frameSize wavyOpts / 2)
        (logoSize wavyOpts / 2 + 5) wavyOpts.backgroundColor] :=
  (logo_disc_spec wavyOpts "x" (by decide)).1

/-- Counterexample to C4 as stated: with no frame, a caption and a logo,
the disc is centered at (150, 150) while the canvas center is (150, 170). -/
theorem logo_disc_center_counterexample :
    (renderPhases noneFrameOpts "x").filter (fun p => Phase.isLogoDisc p) =
      [Phase.logoDisc 150 150 35 "#ffffff"] ∧
    canvasCenter noneFrameOpts = (150, 170) ∧
    ((150 : ℚ), (150 : ℚ)) ≠ canvasCenter noneFrameOpts := by
  have h5 : ¬"Scan Me" = "" := by decide
  have h6 : ¬"x" = "" := by decide
  refine ⟨?_, ?_, ?_⟩
  · norm_num [renderPhases, List.filter_append, Phase.isLogoDisc, noneFrameOpts, wavyOpts,
      frameSize, extraSpace, logoSize, bgFrameCondPre, borderFrameCondPost, bgMembershipPre,
      bgMembershipPost, h5, h6]
  · norm_num [canvasCenter, totalHeight, textSpace, frameSize, extraSpace, noneFrameOpts,
      wavyOpts, Prod.ext_iff, h5]
  · norm_num [canvasCenter, totalHeight, textSpace, frameSize, extraSpace, noneFrameOpts,
      wavyOpts, Prod.ext_iff, h5]

/-- The hexagon path of the source traces exactly the regular-hexagon
vertex set of the spec: the start point is vertex 0 at angle 0, the loop
hits the vertices at 60° increments, and its final step (i = 6, angle 2π)
returns to the start. -/
theorem hexPathPoints_eq_regular (cx cy r : ℝ) :
    hexPathPoints cx cy r = regularHexVertices cx cy r := by
  ext p
  constructor
  · rintro (rfl | ⟨i, h1, h6, rfl⟩)
    · exact ⟨0, by norm_num, by simp⟩
    · rcases eq_or_lt_of_le h6 with h | h
      · refine ⟨0, by norm_num, ?_⟩
        subst h
        have hc : (6 : ℝ) * Real.pi / 3 = 2 * Real.pi := by ring
        simp [hc, Real.cos_two_pi, Real.sin_two_pi]
      · exact ⟨i, by omega, by rw [mul_div_assoc]⟩
  · rintro ⟨i, hi, rfl⟩
    rcases Nat.eq_zero_or_pos i with h0 | hpos
    · subst h0
      left
      simp
    · right
      exact ⟨i, hpos, by omega, by rw [mul_div_assoc]⟩

/-- C5: the clip path of `applyQRShape` matches the selected shape: the
square clip is the region itself; the rounded clip is the region with
corner radius `0.1 * size`; every symbol pixel of a circle-shaped render
lies in the inscribed circle of the region; the hexagon path's vertex set
is the regular hexagon of circumradius `size / 2` with vertex 0 at angle 0
and vertices at 60° increments, and every symbol pixel of a hexagon-shaped
render lies in the convex hull of those vertices. -/
theorem shape_clip_spec (o : QROptions) :
    clipSet Shape.square (qrX o) (qrY o) o.size = rectSet (qrX o) (qrY o) o.size o.size ∧
    clipSet Shape.rounded (qrX o) (qrY o) o.size
      = roundedRectSet (qrX o) (qrY o) o.size o.size (o.size * 0.1) ∧
    (o.shape = Shape.circle →
      symbolPixels o ⊆ diskSet (qrX o + o.size / 2) (qrY o + o.size / 2) (o.size / 2)) ∧
    hexPathPoints (qrX o + o.size / 2) (qrY o + o.size / 2) (o.size / 2)
      = regularHexVertices (qrX o + o.size / 2) (qrY o + o.size / 2) (o.size / 2) ∧
    (o.shape = Shape.hexagon →
      symbolPixels o ⊆ convexHull ℝ
        (regularHexVertices (qrX o + o.size / 2) (qrY o + o.size / 2) (o.size / 2))) := by
  refine ⟨rfl, rfl, fun h => ?_, hexPathPoints_eq_regular _ _ _, fun h => ?_⟩
  · rw [symbolPixels, h]
    exact Set.inter_subset_right
  · rw [symbolPixels, h]
    intro p hp
    have hmem := hp.2
    simp only [clipSet, hexPathPoints_eq_regular] at hmem
    exact hmem

/-- Witness for C5: concrete circle- and hexagon-shaped renders. -/
theorem shape_clip_spec_witness :
    symbolPixels circleOpts ⊆
      diskSet (qrX circleOpts + circleOpts.size / 2) (qrY circleOpts + circleOpts.size / 2)
        (circleOpts.size / 2) ∧
    symbolPixels hexOpts ⊆ convexHull ℝ
      (regularHexVertices (qrX hexOpts + hexOpts.size / 2) (qrY hexOpts + hexOpts.size / 2)
        (hexOpts.size / 2)) :=
  ⟨(shape_clip_spec circleOpts).2.2.1 rfl, (shape_clip_spec hexOpts).2.2.2.2 rfl⟩

/-- Counterexample to C2 as stated: at size 300 with the border-class
`simple` frame, the point (36, 180) is a symbol pixel and lies inside the
frame's stroke band, and that frame is drawn after the symbol layer — so
a border-class frame draw does overwrite symbol pixels. -/
theorem border_frame_overwrite_counterexample :
    ((36 : ℝ), (180 : ℝ)) ∈ symbolPixels simpleOpts ∧
    ((36 : ℝ), (180 : ℝ)) ∈ simpleFramePaint (frameSize simpleOpts) ∧
    (renderPhases simpleOpts "").filter (fun p => Phase.isFrameOrSymbol p) =
      [Phase.symbolDraw (qrX simpleOpts) (qrY simpleOpts) simpleOpts.size,
       Phase.frameDraw FrameType.simple] := by
  have h1 : ¬FrameType.simple = FrameType.none := by decide
  have h2 : ¬FrameType.simple = FrameType.speechBubble := by decide
  have h3 : ¬FrameType.simple = FrameType.wavy := by decide
  have h4 : ¬FrameType.simple = FrameType.cardStyle := by decide
  have h5 : ¬"Scan Me" = "" := by decide
  have hq : qrX simpleOpts = (30 : ℚ) := by
    norm_num [qrX, frameSize, extraSpace, simpleOpts, wavyOpts, h1]
  have hq2 : qrY simpleOpts = (30 : ℚ) := by
    norm_num [qrY, frameSize, extraSpace, simpleOpts, wavyOpts, h1]
  have hf : frameSize simpleOpts = (360 : ℚ) := by
    norm_num [frameSize, extraSpace, simpleOpts, wavyOpts, h1]
  have hs : simpleOpts.size = (300 : ℚ) := rfl
  have hshape : simpleOpts.shape = Shape.square := rfl
  refine ⟨?_, ?_, ?_⟩
  · simp only [symbolPixels, hshape, clipSet, rectSet, Set.mem_inter_iff, Set.mem_setOf_eq,
      hq, hq2, hs]
    push_cast
    norm_num
  · simp only [simpleFramePaint, strokeRectSet, hf, Set.mem_union, Set.mem_setOf_eq]
    push_cast
    norm_num
  · norm_num [renderPhases, List.filter_append, Phase.isFrameOrSymbol, simpleOpts, wavyOpts,
      frameSize, extraSpace, qrX, qrY, bgFrameCondPre, borderFrameCondPost, bgMembershipPre,
      bgMembershipPost, h1, h2, h3, h4, h5]

/-- Running an appended list runs the two parts in order. -/
theorem run_append (l1 l2 : List Cmd) (s : CtxState) :
    run (l1 ++ l2) s = run l2 (run l1 s) := by
  induction l1 generalizing s with
  | nil => rfl
  | cons c l ih => simp [run, ih]

/-- A command that is not `save`/`restore` leaves the stack unchanged. -/
theorem applyCmd_stack (s : CtxState) (c : Cmd) (h : Cmd.touchesStack c = false) :
    (applyCmd s c).stack = s.stack := by
  cases c <;> simp_all [applyCmd, Cmd.touchesStack]

/-- Running a list free of `save`/`restore` preserves the stack. -/
theorem run_stack_invariant (l : List Cmd) (s : CtxState)
    (h : ∀ c ∈ l, Cmd.touchesStack c = false) : (run l s).stack = s.stack := by
  induction l generalizing s with
  | nil => rfl
  | cons c l ih =>
    have hc := h c (List.mem_cons_self c l)
    have hl : ∀ x ∈ l, Cmd.touchesStack x = false := fun x hx => h x (List.mem_cons_of_mem c hx)
    rw [run, ih _ hl, applyCmd_stack s c hc]

/-- No `drawFrame` style body contains `save` or `restore`. -/
theorem drawFrameBody_no_stack (o : QROptions) (fs : ℚ) :
    ∀ c ∈ drawFrameBody o fs, Cmd.touchesStack c = false := by
  intro c hc
  cases c <;> try rfl
  all_goals
    cases hft : o.frameType <;>
      simp [drawFrameBody, hft, wavyTopCmds, wavyRightCmds, wavyBottomCmds,
        wavyLeftCmds] at hc

/-- No `drawFrame` style body contains `clip`. -/
theorem drawFrameBody_no_clip (o : QROptions) (fs : ℚ) :
    ∀ c ∈ drawFrameBody o fs, c ≠ Cmd.clip := by
  intro c hc hceq
  subst hceq
  cases hft : o.frameType <;>
    simp [drawFrameBody, hft, wavyTopCmds, wavyRightCmds, wavyBottomCmds,
      wavyLeftCmds] at hc

/-- `drawFrame` as a whole contains no `clip`. -/
theorem drawFrameCmds_no_clip (o : QROptions) (fs : ℚ) :
    ∀ c ∈ drawFrameCmds o fs, c ≠ Cmd.clip := by
  intro c hc
  rw [drawFrameCmds] at hc
  rcases List.mem_cons.mp hc with rfl | hc2
  · simp
  · rcases List.mem_append.mp hc2 with hbody | hrest
    · exact drawFrameBody_no_clip o fs c hbody
    · rw [List.mem_singleton.mp hrest]
      simp

/-- Running `drawFrame` restores the context drawing state and the save
stack exactly (the `ctx.save()`/`ctx.restore()` bracket at lines 89 and
202), whatever the style body mutated in between. -/
theorem run_drawFrame_preserves (o : QROptions) (fs : ℚ) (s : CtxState) :
    (run (drawFrameCmds o fs) s).style = s.style ∧
    (run (drawFrameCmds o fs) s).stack = s.stack := by
  have hsplit : drawFrameCmds o fs = (Cmd.save :: drawFrameBody o fs) ++ [Cmd.restore] := by
    simp [drawFrameCmds]
  rw [hsplit, run_append]
  have hrun : run (Cmd.save :: drawFrameBody o fs) s
      = run (drawFrameBody o fs) { s with stack := s.style :: s.stack } := rfl
  rw [hrun]
  have hstack := run_stack_invariant (drawFrameBody o fs)
    { s with stack := s.style :: s.stack } (drawFrameBody_no_stack o fs)
  have happ : applyCmd (run (drawFrameBody o fs) { s with stack := s.style :: s.stack })
      Cmd.restore
      = { run (drawFrameBody o fs) { s with stack := s.style :: s.stack } with
          style := s.style, stack := s.stack } := by
    simp only [applyCmd, hstack]
  rw [show run [Cmd.restore] (run (drawFrameBody o fs) { s with stack := s.style :: s.stack })
      = applyCmd (run (drawFrameBody o fs) { s with stack := s.style :: s.stack }) Cmd.restore
    from rfl, happ]
  exact ⟨rfl, rfl⟩

/-- C10: for every frame style, `drawFrame` saves the context state
before its draw commands and restores it afterwards, so fill/stroke
styles, shadow parameters, font and clip mutated by a style (e.g. neon or
card-style) never carry over into the subsequent symbol, logo, or caption
draws. -/
theorem frame_context_restored (o : QROptions) (fs : ℚ) (s : CtxState) :
    (run (drawFrameCmds o fs) s).style = s.style ∧
    (run (drawFrameCmds o fs) s).stack = s.stack :=
  run_drawFrame_preserves o fs s

/-- A command other than `clip` preserves the invariant that no clip is
installed anywhere (active style and all stacked styles). -/
theorem applyCmd_clips_empty (s : CtxState) (c : Cmd) (hc : c ≠ Cmd.clip)
    (hs : s.style.clips = []) (hstack : ∀ fr ∈ s.stack, fr.clips = []) :
    (applyCmd s c).style.clips = [] ∧ ∀ fr ∈ (applyCmd s c).stack, fr.clips = [] := by
  cases c with
  | clip => exact absurd rfl hc
  | save =>
    refine ⟨hs, fun fr hfr => ?_⟩
    rcases List.mem_cons.mp hfr with h | h
    · rw [h]
      exact hs
    · exact hstack fr h
  | restore =>
    cases hstk : s.stack with
    | nil =>
      simp only [applyCmd, hstk]
      exact ⟨hs, by simp⟩
    | cons hd tl =>
      simp only [applyCmd, hstk]
      constructor
      · exact hstack hd (by rw [hstk]; exact List.mem_cons_self hd tl)
      · intro fr hfr
        exact hstack fr (by rw [hstk]; exact List.mem_cons_of_mem hd hfr)
  | beginPath => exact ⟨hs, hstack⟩
  | pathSeg sg => exact ⟨hs, hstack⟩
  | setStrokeStyle v => exact ⟨hs, hstack⟩
  | setFillStyle v => exact ⟨hs, hstack⟩
  | setLineWidth w => exact ⟨hs, hstack⟩
  | setShadowColor cc => exact ⟨hs, hstack⟩
  | setShadowBlur b => exact ⟨hs, hstack⟩
  | setShadowOffsetX v => exact ⟨hs, hstack⟩
  | setShadowOffsetY v => exact ⟨hs, hstack⟩
  | setFont f => exact ⟨hs, hstack⟩
  | setTextAlign a => exact ⟨hs, hstack⟩
  | stroke => exact ⟨hs, hstack⟩
  | fill => exact ⟨hs, hstack⟩
  | strokeRect x y w h => exact ⟨hs, hstack⟩
  | fillRect x y w h => exact ⟨hs, hstack⟩
  | clearRect x y w h => exact ⟨hs, hstack⟩
  | drawImage i x y w h => exact ⟨hs, hstack⟩
  | fillText t x y => exact ⟨hs, hstack⟩

/-- Running any prefix of a clip-free command list from a clip-free state
keeps the active clip empty. -/
theorem run_take_clips_empty (l : List Cmd) :
    ∀ s : CtxState, (∀ c ∈ l, c ≠ Cmd.clip) → s.style.clips = [] →
      (∀ fr ∈ s.stack, fr.clips = []) →
      ∀ n : ℕ, (run (List.take n l) s).style.clips = [] := by
  induction l with
  | nil =>
    intro s hl hs hstack n
    simpa [run, List.take_nil] using hs
  | cons c l ih =>
    intro s hl hs hstack n
    cases n with
    | zero => simpa [run] using hs
    | succ m =>
      have hc := hl c (List.mem_cons_self c l)
      have hl2 : ∀ x ∈ l, x ≠ Cmd.clip := fun x hx => hl x (List.mem_cons_of_mem c hx)
      have hinv := applyCmd_clips_empty s c hc hs hstack
      show (run (List.take m l) (applyCmd s c)).style.clips = []
      exact ih (applyCmd s c) hl2 hinv.1 hinv.2 m

/-- Appending path segments to the current path. -/
theorem run_pathSegs (segs : List PathSeg) (s : CtxState) :
    run (segs.map Cmd.pathSeg) s = { s with path := s.path ++ segs } := by
  induction segs generalizing s with
  | nil => simp [run]
  | cons sg rest ih =>
    simp [run, applyCmd, ih]

/-- Running `applyQRShape` from any state: it pushes the current style,
resets the path to the shape path, and installs that path as the single
new clip entry. -/
theorem run_applyQRShape (sh : Shape) (x y size : ℚ) (s : CtxState) :
    run (applyQRShapeCmds sh x y size) s =
      { style := { s.style with clips := s.style.clips ++ [shapePathSegs sh x y size] },
        stack := s.style :: s.stack,
        path := shapePathSegs sh x y size } := by
  rw [applyQRShapeCmds, run_append, run_append]
  have h1 : run [Cmd.save, Cmd.beginPath] s
      = { s with stack := s.style :: s.stack, path := [] } := rfl
  rw [h1, run_pathSegs]
  rfl

/-- The logo overlay contains no `clip`. -/
theorem logoCmds_no_clip (o : QROptions) : ∀ c ∈ logoCmds o, c ≠ Cmd.clip := by
  intro c hc
  simp only [logoCmds, List.mem_cons, List.not_mem_nil, or_false] at hc
  rcases hc with rfl | rfl | rfl | rfl | rfl <;> simp

/-- The caption draw contains no `clip`. -/
theorem captionCmds_no_clip (o : QROptions) : ∀ c ∈ captionCmds o, c ≠ Cmd.clip := by
  intro c hc
  simp only [captionCmds, List.mem_cons, List.not_mem_nil, or_false] at hc
  rcases hc with rfl | rfl | rfl | rfl <;> simp

/-- Everything drawn after the clip release is clip-free. -/
theorem postSymbolCmds_no_clip (o : QROptions) (logoDataUrl : String) :
    ∀ c ∈ postSymbolCmds o logoDataUrl, c ≠ Cmd.clip := by
  intro c hc
  rw [postSymbolCmds] at hc
  rcases List.mem_append.mp hc with hcc | hcc
  · rcases List.mem_append.mp hcc with hcc2 | hcc2
    · split at hcc2
      · exact drawFrameCmds_no_clip o (frameSize o) c hcc2
      · simp at hcc2
    · split at hcc2
      · exact logoCmds_no_clip o c hcc2
      · simp at hcc2
  · split at hcc
    · exact captionCmds_no_clip o c hcc
    · simp at hcc

/-- C8: the command stream of `generateQR` is exactly the pre-symbol
commands, the symbol draw, the releasing `ctx.restore()`, then the
post-symbol commands; immediately before the symbol draw the installed
clip is exactly the shape path, and after the restore the clip is empty
at every subsequent command — border-class frame, logo disc and logo,
caption — of the same render. -/
theorem clip_scope_spec (o : QROptions) (logoDataUrl : String) :
    generateQRCmds o logoDataUrl
      = preSymbolCmds o ++ Cmd.drawImage ImgSrc.symbol (qrX o) (qrY o) o.size o.size
        :: Cmd.restore :: postSymbolCmds o logoDataUrl ∧
    (run (preSymbolCmds o) initCtx).style.clips
      = [shapePathSegs o.shape (qrX o) (qrY o) o.size] ∧
    ∀ n : ℕ,
      (run (preSymbolCmds o
          ++ Cmd.drawImage ImgSrc.symbol (qrX o) (qrY o) o.size o.size
            :: Cmd.restore :: List.take n (postSymbolCmds o logoDataUrl)) initCtx).style.clips
        = [] := by
  have hpre : run (preSymbolCmds o) initCtx
      = { style := { initCtx.style with
            clips := [shapePathSegs o.shape (qrX o) (qrY o) o.size] },
          stack := [initCtx.style],
          path := shapePathSegs o.shape (qrX o) (qrY o) o.size } := by
    rw [preSymbolCmds, run_append, run_append]
    have h0 : run [Cmd.clearRect 0 0 (frameSize o) (totalHeight o)] initCtx = initCtx := rfl
    rw [h0]
    by_cases hbg : bgFrameCondPre o.frameType
    · rw [if_pos hbg, run_applyQRShape]
      have hfr := run_drawFrame_preserves o (frameSize o) initCtx
      rw [hfr.1, hfr.2]
      rfl
    · rw [if_neg hbg]
      rw [show run ([] : List Cmd) initCtx = initCtx from rfl, run_applyQRShape]
      rfl
  refine ⟨rfl, by rw [hpre], ?_⟩
  intro n
  rw [run_append]
  have hdr : run (Cmd.drawImage ImgSrc.symbol (qrX o) (qrY o) o.size o.size
      :: Cmd.restore :: List.take n (postSymbolCmds o logoDataUrl)) (run (preSymbolCmds o) initCtx)
      = run (List.take n (postSymbolCmds o logoDataUrl))
          { style := initCtx.style, stack := [],
            path := shapePathSegs o.shape (qrX o) (qrY o) o.size } := by
    rw [hpre]
    rfl
  rw [hdr]
  exact run_take_clips_empty (postSymbolCmds o logoDataUrl)
    { style := initCtx.style, stack := [],
      path := shapePathSegs o.shape (qrX o) (qrY o) o.size }
    (postSymbolCmds_no_clip o logoDataUrl) rfl (by simp) n

/-- C6: when the payload exceeds the symbol capacity at the requested
error-correction level, the render fails: a user-visible failure toast is
emitted, no compositing phase runs, and the previously produced artifact
is left unchanged. -/
theorem encoding_failure_spec (o : QROptions) (logoDataUrl : String) (prev : Option Artifact)
    (h : symbolCapacity o.errorCorrectionLevel < o.text.length) :
    generateQRRun o logoDataUrl prev
      = (prev, [], [Toast.error "Failed to generate QR code"]) := by
  simp only [generateQRRun, encodeSymbol, if_pos h]

/-- Witness for C6: the oversized payload leaves a previously produced
artifact untouched and yields only the failure toast. -/
theorem encoding_failure_spec_witness :
    generateQRRun overflowOpts "" none
      = (none, [], [Toast.error "Failed to generate QR code"]) :=
  encoding_failure_spec overflowOpts "" none
    (by norm_num [overflowOpts, symbolCapacity, String.length, List.length_replicate])

/-- C7: an uploaded logo over the 5 MB limit is rejected — a size-limit
toast is shown and the state (in particular `logoDataUrl`) is unchanged;
a file within the limit is accepted — `logoDataUrl` is set from the
file's contents and a success toast is shown. -/
theorem logo_upload_spec (f : LogoFile) (st : LogoState) :
    (5 * 1024 * 1024 < f.size →
      handleLogoUpload (some f) st
        = (st, [Toast.error "Logo file size must be less than 5MB"])) ∧
    (f.size ≤ 5 * 1024 * 1024 →
      handleLogoUpload (some f) st
        = ({ logoFile := some f, logoDataUrl := fileDataUrl f },
           [Toast.success "Logo uploaded successfully!"])) := by
  constructor
  · intro h
    simp only [handleLogoUpload, if_pos h]
  · intro h
    simp only [handleLogoUpload, if_neg (not_lt.mpr h)]

/-- Witness for C7: the 6 MB file is rejected leaving `logoDataUrl`
unset; the 4 MB file is accepted and sets it. -/
theorem logo_upload_spec_witness :
    handleLogoUpload (some bigLogo) {}
      = ({}, [Toast.error "Logo file size must be less than 5MB"]) ∧
    handleLogoUpload (some okLogo) {}
      = ({ logoFile := some okLogo, logoDataUrl := fileDataUrl okLogo },
         [Toast.success "Logo uploaded successfully!"]) :=
  ⟨(logo_upload_spec bigLogo {}).1 (by norm_num [bigLogo]),
   (logo_upload_spec okLogo {}).2 (by norm_num [okLogo])⟩

end QRStudio
